import Mathlib

/-!
Verification of `GoogleRecaptchaBypass/RecaptchaSolver.py` (class
`RecaptchaSolver`, methods `solveCaptcha` and `isSolved`).

The Python code drives an external browser handle (`self.driver`) and
external services (audio download, transcoding, speech recognition).
We embed it shallowly: an `Env` records the outcome of every external
call an execution can make (success with a value, or a raised Python
exception), and `solveCaptcha : Env → Result` replays the method's
control flow over that environment, recording the observable trace:
which external calls were made, files created and deleted, the text
typed into the answer field, the printed log lines, and how the call
terminated (a normal `return` of Python `None`, or a propagating
exception).
-/

/-- A Python exception value as the solver observes it: either an
exception raised by an external call (message kept abstract), or the
`UnboundLocalError` CPython raises when a local variable is read
before assignment. -/
inductive PyExn where
  | userExn (msg : String)
  | unboundLocal (name : String)
  deriving DecidableEq, Repr

/-- Message text of an exception, as interpolated into `print` output. -/
def PyExn.msg : PyExn → String
  | .userExn m => m
  | .unboundLocal n =>
      "cannot access local variable " ++ n ++ " where it is not associated with a value"

/-- A Python value a `return` statement can produce.  Every `return` in
`solveCaptcha` is a bare `return`, i.e. produces `vNone`; `isSolved`
returns a boolean. -/
inductive PyVal where
  | vNone
  | vBool (b : Bool)
  | vStr (s : String)
  deriving DecidableEq, Repr

/-- Behaviour of the browser handle and the external services for one
invocation of `solveCaptcha`.  Each field is the result of the
corresponding external call, in source order:

* `findIframeInner` — `self.driver("@title=reCAPTCHA")` (line 13)
* `clickAnchor` — `iframe_inner(".rc-anchor-content", timeout=1).click()` (line 23)
* `waitDisplayed` — `self.driver.wait.ele_displayed(..., timeout=10)` (line 30)
* `checkmarkAttrs` — `self.driver.ele(".recaptcha-checkbox-checkmark", timeout=1).attrs`
  inside `isSolved` (line 120); on success, the list of attribute names
* `findIframe` — `self.driver("xpath://iframe[contains(@title, recaptcha)]")` (line 42)
* `clickAudioButton` — `iframe("#recaptcha-audio-button", timeout=1).click()` (line 50)
* `audioSrc` — `iframe("#audio-source").attrs["src"]` (line 59)
* `suffixMp3`, `suffixWav` — the two draws of `random.randrange(1, 1000)`
  (lines 68 and 70); `randrangeOkMp3`/`randrangeOkWav` record that each
  draw lies in the range `1..999` that `randrange(1, 1000)` guarantees
* `download` — `urllib.request.urlretrieve(src, path_to_mp3)` (line 71)
* `transcode` — `pydub.AudioSegment.from_mp3` + `export(..., format="wav")` (lines 79-80)
* `transcribe` — `r.record(source)` + `r.recognize_google(audio)` (lines 91-92);
  on success, the recognized text
* `inputText` — `iframe("#audio-response").input(key.lower())` (line 100)
* `pressEnter` — `iframe("#audio-response").input(Keys.ENTER)` (line 102);
  both sit in the same `try` block, whose `except` prints and returns -/
structure Env where
  findIframeInner : Except PyExn Unit
  clickAnchor : Except PyExn Unit
  waitDisplayed : Except PyExn Unit
  checkmarkAttrs : Except PyExn (List String)
  findIframe : Except PyExn Unit
  clickAudioButton : Except PyExn Unit
  audioSrc : Except PyExn String
  suffixMp3 : Nat
  suffixWav : Nat
  randrangeOkMp3 : 1 ≤ suffixMp3 ∧ suffixMp3 < 1000
  randrangeOkWav : 1 ≤ suffixWav ∧ suffixWav < 1000
  download : Except PyExn Unit
  transcode : Except PyExn Unit
  transcribe : Except PyExn String
  inputText : Except PyExn Unit
  pressEnter : Except PyExn Unit

/-- The abort site of an execution that hit a caught failure, named
after the step that failed (§7 of the design gives the taxonomy). -/
inductive AbortKind where
  | WidgetNotFound
  | ClickFailed
  | AudioEntryWaitFailed
  | AudioIframeNotFound
  | AudioButtonFailed
  | AudioSrcFailed
  | DownloadFailed
  | TranscodeFailed
  | TranscriptionFailed
  | SubmitFailed
  deriving DecidableEq, Repr

/-- How one invocation of `solveCaptcha` terminated.  `Solved` is the
early return at line 37-38; `Aborted k` is the `return` inside the
`except` handler of step `k`; `Submitted` is falling off the end of the
method after typing the answer (the post-submit re-check at lines
109-114 is commented out, so the method ends there); `Crashed` is an
exception propagating out of `solveCaptcha` to the caller. -/
inductive Outcome where
  | Solved
  | Aborted (k : AbortKind)
  | Submitted
  | Crashed
  deriving DecidableEq, Repr

/-- Observable trace of one invocation of `solveCaptcha`. -/
structure Result where
  outcome : Outcome
  /-- Exception propagating past `solveCaptcha`, if any. -/
  exn : Option PyExn := none
  /-- Value produced by the `return` that ended the call (`none` when
  the call ended by a propagating exception instead). -/
  retval : Option PyVal := none
  /-- Whether `isSolved` was invoked (line 36). -/
  solvedCheckCalled : Bool := false
  /-- Whether the audio download (`urlretrieve`) was invoked. -/
  downloadCalled : Bool := false
  /-- Whether the transcoder (`pydub`) was invoked. -/
  transcodeCalled : Bool := false
  /-- Whether the transcriber (`recognize_google`) was invoked. -/
  transcribeCalled : Bool := false
  /-- Number of solved-indicator re-checks performed after the answer
  was submitted (lines 109-114 are commented out in the source). -/
  postSubmitChecks : Nat := 0
  /-- Text typed into `#audio-response`, if the execution got there. -/
  typed : Option String := none
  /-- Whether the confirm action (ENTER) was sent. -/
  submitted : Bool := false
  /-- Local temporary files created by this invocation. -/
  filesCreated : List String := []
  /-- Local temporary files deleted by this invocation. -/
  filesDeleted : List String := []
  /-- Lines printed, in order (element objects elided from line 14 and
  line 43 output; exception messages interpolated). -/
  log : List String := []
  deriving DecidableEq, Repr

/-- Python `str.lower()` on the recognized text (line 100): lower-case
every character.  Python lower-cases per Unicode; this embedding
lower-cases ASCII letters, on which the two agree. -/
def pyLower (s : String) : String := String.mk (s.data.map Char.toLower)

/-- The temporary directory used on POSIX (`os.name != "nt"`), line 68:
the string literal `"/tmp/"`, shared by every process on the host. -/
def tempDirPosix : String := "/tmp/"

/-- Temporary file path construction, lines 67-70:
`os.path.normpath(os.path.join(dir + str(r) + ext))`.  Called with a
single argument, `os.path.join` is the identity, and `normpath` leaves
`/tmp/<digits><ext>` unchanged, so the path is the plain concatenation. -/
def mkTempPath (suffix : Nat) (ext : String) : String :=
  tempDirPosix ++ toString suffix ++ ext

/-- The mp3 path generated by an invocation (line 67-68). -/
def mp3PathOf (env : Env) : String := mkTempPath env.suffixMp3 ".mp3"

/-- The wav path generated by an invocation (line 69-70). -/
def wavPathOf (env : Env) : String := mkTempPath env.suffixWav ".wav"

/-- Embedding of `RecaptchaSolver.isSolved` (lines 116-125).  The `try` block reads
the attribute dict of the checkmark element and tests `"style" in` it.
The `except` handler prints the error and executes `return solved`;
when the element lookup itself raised, the local `solved` was never
assigned, so that `return` raises `UnboundLocalError` instead of
returning.  The result is the returned boolean or the propagating
exception, paired with the lines printed. -/
def isSolved (env : Env) : Except PyExn Bool × List String :=
  match env.checkmarkAttrs with
  | .ok attrs =>
      let solved := attrs.contains "style"
      (.ok solved,
        ["[INFO] Verificando si el CAPTCHA está resuelto...",
         "[INFO] CAPTCHA resuelto: " ++ toString solved])
  | .error e =>
      (.error (PyExn.unboundLocal "solved"),
        ["[INFO] Verificando si el CAPTCHA está resuelto...",
         "[ERROR] Error al verificar si el CAPTCHA está resuelto: " ++ e.msg])

/-- Embedding of `RecaptchaSolver.solveCaptcha` (lines 9-114), replayed over an
environment.  Each `try/except` block becomes a match on the
corresponding `Env` field: the `except` branch prints the error and
`return`s (Python `None`).  The call to `isSolved` at line 36 is not
inside any `try`, so an exception it raises propagates to the caller. -/
def solveCaptcha (env : Env) : Result :=
  let l0 := ["[INFO] Iniciando solución de CAPTCHA",
             "[INFO] Localizando iframe interno de reCAPTCHA..."]
  match env.findIframeInner with
  | .error e =>
      { outcome := .Aborted .WidgetNotFound, retval := some .vNone,
        log := l0 ++ ["[ERROR] No se pudo localizar el iframe interno: " ++ e.msg] }
  | .ok _ =>
  let l1 := l0 ++ ["[INFO] Iframe encontrado:",
                   "[INFO] Haciendo clic en el contenido del reCAPTCHA..."]
  match env.clickAnchor with
  | .error e =>
      { outcome := .Aborted .ClickFailed, retval := some .vNone,
        log := l1 ++ ["[ERROR] No se pudo hacer clic en el reCAPTCHA: " ++ e.msg] }
  | .ok _ =>
  let l2 := l1 ++ ["[INFO] Esperando que el iframe del reCAPTCHA sea visible..."]
  match env.waitDisplayed with
  | .error e =>
      { outcome := .Aborted .AudioEntryWaitFailed, retval := some .vNone,
        log := l2 ++ ["[ERROR] El iframe no se hizo visible a tiempo: " ++ e.msg] }
  | .ok _ =>
  match isSolved env with
  | (.error e, ls) =>
      -- line 36: `if self.isSolved():` is not wrapped in a try; the
      -- exception propagates out of solveCaptcha.
      { outcome := .Crashed, exn := some e, retval := none,
        solvedCheckCalled := true, log := l2 ++ ls }
  | (.ok solved, ls) =>
  if solved then
      { outcome := .Solved, retval := some .vNone, solvedCheckCalled := true,
        log := l2 ++ ls ++ ["[INFO] CAPTCHA resuelto tras el primer clic."] }
  else
  let l3 := l2 ++ ls ++ ["[INFO] Localizando nuevo iframe del reCAPTCHA..."]
  match env.findIframe with
  | .error e =>
      { outcome := .Aborted .AudioIframeNotFound, retval := some .vNone,
        solvedCheckCalled := true,
        log := l3 ++ ["[ERROR] No se pudo localizar el nuevo iframe: " ++ e.msg] }
  | .ok _ =>
  let l4 := l3 ++ ["[INFO] Iframe encontrado:",
                   "[INFO] Haciendo clic en el botón de audio del reCAPTCHA..."]
  match env.clickAudioButton with
  | .error e =>
      { outcome := .Aborted .AudioButtonFailed, retval := some .vNone,
        solvedCheckCalled := true,
        log := l4 ++ ["[ERROR] No se pudo hacer clic en el botón de audio: " ++ e.msg] }
  | .ok _ =>
  let l5 := l4 ++ ["[INFO] Obteniendo la fuente del audio..."]
  match env.audioSrc with
  | .error e =>
      { outcome := .Aborted .AudioSrcFailed, retval := some .vNone,
        solvedCheckCalled := true,
        log := l5 ++ ["[ERROR] No se pudo obtener la fuente del audio: " ++ e.msg] }
  | .ok src =>
  let l6 := l5 ++ ["[INFO] Fuente de audio obtenida: " ++ src,
                   "[INFO] Descargando el archivo de audio..."]
  let mp3 := mp3PathOf env
  let wav := wavPathOf env
  match env.download with
  | .error e =>
      { outcome := .Aborted .DownloadFailed, retval := some .vNone,
        solvedCheckCalled := true, downloadCalled := true,
        log := l6 ++ ["[ERROR] No se pudo descargar el archivo de audio: " ++ e.msg] }
  | .ok _ =>
  let l7 := l6 ++ ["[INFO] Archivo de audio descargado en: " ++ mp3,
                   "[INFO] Convirtiendo el archivo MP3 a WAV..."]
  match env.transcode with
  | .error e =>
      { outcome := .Aborted .TranscodeFailed, retval := some .vNone,
        solvedCheckCalled := true, downloadCalled := true, transcodeCalled := true,
        filesCreated := [mp3],
        log := l7 ++ ["[ERROR] No se pudo convertir el archivo de audio: " ++ e.msg] }
  | .ok _ =>
  let l8 := l7 ++ ["[INFO] Archivo convertido a WAV: " ++ wav,
                   "[INFO] Reconociendo el audio..."]
  match env.transcribe with
  | .error e =>
      { outcome := .Aborted .TranscriptionFailed, retval := some .vNone,
        solvedCheckCalled := true, downloadCalled := true, transcodeCalled := true,
        transcribeCalled := true, filesCreated := [mp3, wav],
        log := l8 ++ ["[ERROR] No se pudo reconocer el audio: " ++ e.msg] }
  | .ok key =>
  let l9 := l8 ++ ["[INFO] Texto reconocido: " ++ key,
                   "[INFO] Ingresando el texto reconocido en el reCAPTCHA..."]
  match env.inputText with
  | .error e =>
      { outcome := .Aborted .SubmitFailed, retval := some .vNone,
        solvedCheckCalled := true, downloadCalled := true, transcodeCalled := true,
        transcribeCalled := true, typed := none,
        filesCreated := [mp3, wav],
        log := l9 ++ ["[ERROR] No se pudo ingresar el texto en el reCAPTCHA: " ++ e.msg] }
  | .ok _ =>
  match env.pressEnter with
  | .error e =>
      { outcome := .Aborted .SubmitFailed, retval := some .vNone,
        solvedCheckCalled := true, downloadCalled := true, transcodeCalled := true,
        transcribeCalled := true, typed := some (pyLower key),
        filesCreated := [mp3, wav],
        log := l9 ++ ["[ERROR] No se pudo ingresar el texto en el reCAPTCHA: " ++ e.msg] }
  | .ok _ =>
      -- lines 107-114: sleep 0.4, then the re-check block is commented
      -- out; the method falls off the end.
      { outcome := .Submitted, retval := some .vNone,
        solvedCheckCalled := true, downloadCalled := true, transcodeCalled := true,
        transcribeCalled := true, typed := some (pyLower key), submitted := true,
        postSubmitChecks := 0, filesCreated := [mp3, wav], log := l9 }

/-! ## Concrete environments used as witnesses and counterexamples -/

/-- An execution in which every external call succeeds, the checkmark
element exists but carries no `style` attribute (so the first solved
check is negative), and the transcriber returns `catdog` (§8 scenario). -/
def envFull : Env where
  findIframeInner := .ok ()
  clickAnchor := .ok ()
  waitDisplayed := .ok ()
  checkmarkAttrs := .ok ["class", "role"]
  findIframe := .ok ()
  clickAudioButton := .ok ()
  audioSrc := .ok "https://example.com/a.mp3"
  suffixMp3 := 5
  suffixWav := 6
  randrangeOkMp3 := by decide
  randrangeOkWav := by decide
  download := .ok ()
  transcode := .ok ()
  transcribe := .ok "catdog"
  inputText := .ok ()
  pressEnter := .ok ()

/-- Like `envFull`, but locating the checkmark element inside
`isSolved` raises (the element query fails). -/
def envCheckmarkFails : Env :=
  { envFull with checkmarkAttrs := .error (PyExn.userExn "NoneElementError") }

/-- Like `envFull`, but the initial click on `.rc-anchor-content`
raises. -/
def envClickFails : Env :=
  { envFull with clickAnchor := .error (PyExn.userExn "ElementNotFoundError") }

/-- Like `envFull`, but the checkmark element carries a `style`
attribute: the solved indicator is present right after the first
click. -/
def envSolvedEarly : Env :=
  { envFull with checkmarkAttrs := .ok ["class", "role", "style"] }

/-- Like `envFull`, but the audio download raises. -/
def envDownloadFails : Env :=
  { envFull with download := .error (PyExn.userExn "URLError") }

/-- Like `envFull`, but the transcriber returns the empty string. -/
def envEmptyTranscript : Env :=
  { envFull with transcribe := .ok "" }

/-- Like `envFull`, but the transcriber returns mixed-case text. -/
def envHello : Env :=
  { envFull with transcribe := .ok "Hello World" }

/-- A second, distinct solve attempt (different audio URL and wav
draw) whose mp3 random draw happens to coincide with that of
`envFull`: `random.randrange(1, 1000)` can return 5 in both. -/
def envClash : Env :=
  { envFull with audioSrc := .ok "https://example.com/b.mp3", suffixWav := 7,
                 randrangeOkWav := by decide }

/-! ## Claims -/

/-- **C1.**  The spec claims no exception ever propagates past
`solveCaptcha`.  The code contradicts this: when locating the checkmark
element inside `isSolved` fails, the `except` handler executes
`return solved` with the local `solved` never assigned, so an
`UnboundLocalError` is raised there, and the `isSolved()` call at line
36 is not wrapped in any `try`, so it propagates past `solveCaptcha` to
the caller.  The handler is plainly a slip (the spec and the handler
itself intend to swallow the failure), so this is a bug in the code. -/
theorem C1_checkmark_failure_crashes_solveCaptcha :
    (solveCaptcha envCheckmarkFails).exn = some (PyExn.unboundLocal "solved") ∧
    (solveCaptcha envCheckmarkFails).outcome = Outcome.Crashed ∧
    (solveCaptcha envCheckmarkFails).retval = none :=
  ⟨rfl, rfl, rfl⟩

/-- **C2 (counterexample).**  The claim says both temporary files are
deleted before `solveCaptcha` returns on every exit path.  In the §8
success scenario the execution creates both files and deletes
neither. -/
theorem C2_counterexample :
    (solveCaptcha envFull).filesCreated = ["/tmp/5.mp3", "/tmp/6.wav"] ∧
    (solveCaptcha envFull).filesDeleted = [] := by
  exact ⟨rfl, rfl⟩

/-- **C2 (amended).**  `solveCaptcha` never deletes any file: on every
exit path the list of deleted temporary files is empty, so the files
created on the audio-fallback path are leaked. -/
theorem C2_no_file_is_ever_deleted (env : Env) :
    (solveCaptcha env).filesDeleted = [] := by
  obtain ⟨f1, f2, f3, f4, f5, f6, f7, s1, s2, r1, r2, d, tc, tr, it, pe⟩ := env
  rcases f1 with e1 | u1
  · rfl
  rcases f2 with e2 | u2
  · rfl
  rcases f3 with e3 | u3
  · rfl
  rcases f4 with e4 | a4
  · rfl
  simp only [solveCaptcha, isSolved]
  split
  · rfl
  rcases f5 with e5 | u5
  · rfl
  rcases f6 with e6 | u6
  · rfl
  rcases f7 with e7 | v7
  · rfl
  rcases d with ed | ud
  · rfl
  rcases tc with ec | uc
  · rfl
  rcases tr with et | vt
  · rfl
  rcases it with ei | ui
  · rfl
  rcases pe with ep | up
  · rfl
  rfl

/-- **C3 (counterexample).**  The claim says a failed initial click is
non-fatal and the solver continues to the solved-indicator check and,
if needed, the audio fallback.  In the code the `except` handler at
lines 24-26 executes `return`: in an execution where only the initial
click fails, `isSolved` is never invoked and no download happens. -/
theorem C3_counterexample :
    (solveCaptcha envClickFails).outcome = Outcome.Aborted AbortKind.ClickFailed ∧
    (solveCaptcha envClickFails).solvedCheckCalled = false ∧
    (solveCaptcha envClickFails).downloadCalled = false :=
  ⟨rfl, rfl, rfl⟩

/-- **C3 (amended).**  When the initial click on the primary
interactive region fails, `solveCaptcha` logs the failure and returns
immediately (Python `None`), aborting the attempt: it performs neither
the solved-indicator check nor any step of the audio fallback. -/
theorem C3_click_failure_aborts (env : Env) (e : PyExn)
    (h1 : env.findIframeInner = .ok ())
    (h2 : env.clickAnchor = .error e) :
    (solveCaptcha env).outcome = Outcome.Aborted AbortKind.ClickFailed ∧
    (solveCaptcha env).solvedCheckCalled = false ∧
    (solveCaptcha env).downloadCalled = false ∧
    (solveCaptcha env).retval = some PyVal.vNone ∧
    ("[ERROR] No se pudo hacer clic en el reCAPTCHA: " ++ e.msg) ∈
      (solveCaptcha env).log := by
  simp [solveCaptcha, h1, h2]

/-- Witness for C3: the amended theorem applied to the concrete
environment where only the initial click fails. -/
theorem C3_click_failure_aborts_witness :
    (solveCaptcha envClickFails).outcome = Outcome.Aborted AbortKind.ClickFailed ∧
    (solveCaptcha envClickFails).solvedCheckCalled = false ∧
    (solveCaptcha envClickFails).downloadCalled = false ∧
    (solveCaptcha envClickFails).retval = some PyVal.vNone ∧
    ("[ERROR] No se pudo hacer clic en el reCAPTCHA: " ++
      (PyExn.userExn "ElementNotFoundError").msg) ∈ (solveCaptcha envClickFails).log :=
  C3_click_failure_aborts envClickFails (PyExn.userExn "ElementNotFoundError") rfl rfl

/-- **C4 (counterexample).**  The claim says an execution reaching
`AnswerSubmitted` performs exactly one re-check of the solved indicator
and ends in Solved or Unsolved.  In the §8 success scenario the answer
is submitted, yet zero re-checks happen (lines 109-114 are commented
out) and the outcome is neither Solved nor Unsolved. -/
theorem C4_counterexample :
    (solveCaptcha envFull).submitted = true ∧
    (solveCaptcha envFull).postSubmitChecks = 0 ∧
    (solveCaptcha envFull).outcome = Outcome.Submitted :=
  ⟨rfl, rfl, rfl⟩

/-- **C4 (amended).**  No execution of `solveCaptcha` performs any
solved-indicator re-check after the answer is submitted (the re-check
block is commented out): an execution that reaches submission falls off
the end of the method, terminating with the result of the attempt
undetermined rather than in Solved or Unsolved. -/
theorem C4_no_post_submit_recheck (env : Env) :
    (solveCaptcha env).postSubmitChecks = 0 ∧
    ((solveCaptcha env).submitted = true →
      (solveCaptcha env).outcome = Outcome.Submitted) := by
  obtain ⟨f1, f2, f3, f4, f5, f6, f7, s1, s2, r1, r2, d, tc, tr, it, pe⟩ := env
  rcases f1 with e1 | u1
  · exact ⟨rfl, fun h => nomatch h⟩
  rcases f2 with e2 | u2
  · exact ⟨rfl, fun h => nomatch h⟩
  rcases f3 with e3 | u3
  · exact ⟨rfl, fun h => nomatch h⟩
  rcases f4 with e4 | a4
  · exact ⟨rfl, fun h => nomatch h⟩
  simp only [solveCaptcha, isSolved]
  split
  · exact ⟨rfl, fun h => nomatch h⟩
  rcases f5 with e5 | u5
  · exact ⟨rfl, fun h => nomatch h⟩
  rcases f6 with e6 | u6
  · exact ⟨rfl, fun h => nomatch h⟩
  rcases f7 with e7 | v7
  · exact ⟨rfl, fun h => nomatch h⟩
  rcases d with ed | ud
  · exact ⟨rfl, fun h => nomatch h⟩
  rcases tc with ec | uc
  · exact ⟨rfl, fun h => nomatch h⟩
  rcases tr with et | vt
  · exact ⟨rfl, fun h => nomatch h⟩
  rcases it with ei | ui
  · exact ⟨rfl, fun h => nomatch h⟩
  rcases pe with ep | up
  · exact ⟨rfl, fun h => nomatch h⟩
  exact ⟨rfl, fun _ => rfl⟩

/-- Witness for C4: in the §8 success scenario the answer is submitted,
and the theorem yields zero re-checks and the undetermined outcome. -/
theorem C4_no_post_submit_recheck_witness :
    (solveCaptcha envFull).postSubmitChecks = 0 ∧
    (solveCaptcha envFull).outcome = Outcome.Submitted :=
  ⟨(C4_no_post_submit_recheck envFull).1, (C4_no_post_submit_recheck envFull).2 rfl⟩

/-- **C5.**  Fast-path property: when the checkmark element is located
and carries the solved indicator (`style` attribute) at the check after
the initial click, `solveCaptcha` terminates with outcome Solved and
performs no audio download, no transcode call, and no transcription
call. -/
theorem C5_fast_path_skips_audio_pipeline (env : Env) (attrs : List String)
    (h1 : env.findIframeInner = .ok ())
    (h2 : env.clickAnchor = .ok ())
    (h3 : env.waitDisplayed = .ok ())
    (h4 : env.checkmarkAttrs = .ok attrs)
    (h5 : "style" ∈ attrs) :
    (solveCaptcha env).outcome = Outcome.Solved ∧
    (solveCaptcha env).downloadCalled = false ∧
    (solveCaptcha env).transcodeCalled = false ∧
    (solveCaptcha env).transcribeCalled = false ∧
    (solveCaptcha env).retval = some PyVal.vNone := by
  simp [solveCaptcha, isSolved, h1, h2, h3, h4, h5]

/-- Witness for C5: the environment where the checkmark element carries
`class`, `role` and `style` right after the first click. -/
theorem C5_fast_path_skips_audio_pipeline_witness :
    (solveCaptcha envSolvedEarly).outcome = Outcome.Solved ∧
    (solveCaptcha envSolvedEarly).downloadCalled = false ∧
    (solveCaptcha envSolvedEarly).transcodeCalled = false ∧
    (solveCaptcha envSolvedEarly).transcribeCalled = false ∧
    (solveCaptcha envSolvedEarly).retval = some PyVal.vNone :=
  C5_fast_path_skips_audio_pipeline envSolvedEarly ["class", "role", "style"]
    rfl rfl rfl rfl (by decide)

/-- **C6.**  When the execution reaches the audio download and the
download fails, `solveCaptcha` terminates with outcome exactly
Aborted(DownloadFailed) — a normal return of Python `None` — and
neither the transcoder nor the transcriber is invoked afterwards. -/
theorem C6_download_failure_aborts (env : Env) (attrs : List String)
    (src : String) (e : PyExn)
    (h1 : env.findIframeInner = .ok ())
    (h2 : env.clickAnchor = .ok ())
    (h3 : env.waitDisplayed = .ok ())
    (h4 : env.checkmarkAttrs = .ok attrs)
    (h5 : "style" ∉ attrs)
    (h6 : env.findIframe = .ok ())
    (h7 : env.clickAudioButton = .ok ())
    (h8 : env.audioSrc = .ok src)
    (h9 : env.download = .error e) :
    (solveCaptcha env).outcome = Outcome.Aborted AbortKind.DownloadFailed ∧
    (solveCaptcha env).transcodeCalled = false ∧
    (solveCaptcha env).transcribeCalled = false ∧
    (solveCaptcha env).retval = some PyVal.vNone := by
  simp [solveCaptcha, isSolved, h1, h2, h3, h4, h5, h6, h7, h8, h9]

/-- Witness for C6: the §8 scenario with a failing download. -/
theorem C6_download_failure_aborts_witness :
    (solveCaptcha envDownloadFails).outcome = Outcome.Aborted AbortKind.DownloadFailed ∧
    (solveCaptcha envDownloadFails).transcodeCalled = false ∧
    (solveCaptcha envDownloadFails).transcribeCalled = false ∧
    (solveCaptcha envDownloadFails).retval = some PyVal.vNone :=
  C6_download_failure_aborts envDownloadFails ["class", "role"]
    "https://example.com/a.mp3" (PyExn.userExn "URLError")
    rfl rfl rfl rfl (by decide) rfl rfl rfl rfl

/-- **C7 (counterexample).**  The claim says an empty transcription
yields Aborted(TranscriptionFailed) with nothing typed and both
temporary files removed.  The code only aborts the recognition step on
a raised exception; `recognize_google` returning the empty string is a
normal value, so the solver types the empty string, submits it, and
deletes no file. -/
theorem C7_counterexample :
    (solveCaptcha envEmptyTranscript).outcome ≠
      Outcome.Aborted AbortKind.TranscriptionFailed ∧
    (solveCaptcha envEmptyTranscript).typed = some "" ∧
    (solveCaptcha envEmptyTranscript).submitted = true ∧
    (solveCaptcha envEmptyTranscript).filesDeleted = [] :=
  ⟨fun h => (nomatch h), rfl, rfl, rfl⟩

/-- **C7 (amended).**  When the transcriber returns the empty string
(and typing succeeds), `solveCaptcha` does not abort: it types the
lower-cased empty string into the answer field, sends the confirm
action, terminates with the submission outcome, and removes neither
temporary file. -/
theorem C7_empty_transcription_is_submitted (env : Env) (attrs : List String)
    (src : String)
    (h1 : env.findIframeInner = .ok ())
    (h2 : env.clickAnchor = .ok ())
    (h3 : env.waitDisplayed = .ok ())
    (h4 : env.checkmarkAttrs = .ok attrs)
    (h5 : "style" ∉ attrs)
    (h6 : env.findIframe = .ok ())
    (h7 : env.clickAudioButton = .ok ())
    (h8 : env.audioSrc = .ok src)
    (h9 : env.download = .ok ())
    (h10 : env.transcode = .ok ())
    (h11 : env.transcribe = .ok "")
    (h12 : env.inputText = .ok ())
    (h13 : env.pressEnter = .ok ()) :
    (solveCaptcha env).outcome = Outcome.Submitted ∧
    (solveCaptcha env).typed = some "" ∧
    (solveCaptcha env).submitted = true ∧
    (solveCaptcha env).filesDeleted = [] := by
  simp [solveCaptcha, isSolved, pyLower,
    h1, h2, h3, h4, h5, h6, h7, h8, h9, h10, h11, h12, h13]

/-- Witness for C7: the §8 scenario with an empty transcription. -/
theorem C7_empty_transcription_is_submitted_witness :
    (solveCaptcha envEmptyTranscript).outcome = Outcome.Submitted ∧
    (solveCaptcha envEmptyTranscript).typed = some "" ∧
    (solveCaptcha envEmptyTranscript).submitted = true ∧
    (solveCaptcha envEmptyTranscript).filesDeleted = [] :=
  C7_empty_transcription_is_submitted envEmptyTranscript ["class", "role"]
    "https://example.com/a.mp3" rfl rfl rfl rfl (by decide) rfl rfl rfl rfl rfl rfl rfl rfl

/-- **C8 (counterexample).**  The claim says the generated local file
paths of any two concurrent solve attempts do not clash.  The name is
drawn from `random.randrange(1, 1000)`, a 999-value range, so two
distinct attempts can draw the same number: `envFull` and `envClash`
are different attempts (different audio URL and wav draw) whose mp3
paths are both `/tmp/5.mp3`. -/
theorem C8_counterexample :
    envFull.suffixWav ≠ envClash.suffixWav ∧
    mp3PathOf envFull = mp3PathOf envClash ∧
    mp3PathOf envFull = "/tmp/5.mp3" :=
  ⟨by decide, rfl, rfl⟩

/-- **C8 (amended).**  The audio download writes into the shared
`/tmp/` directory (not a process-private location) under a name that is
just the decimal of one `randrange(1, 1000)` draw — a value between 1
and 999 — so the paths of two solve attempts clash whenever their draws
coincide, which the 999-value range does not prevent. -/
theorem C8_temp_paths_clash_on_equal_draws (e1 e2 : Env)
    (h : e1.suffixMp3 = e2.suffixMp3) :
    mp3PathOf e1 = mp3PathOf e2 ∧
    mp3PathOf e1 = tempDirPosix ++ toString e1.suffixMp3 ++ ".mp3" ∧
    1 ≤ e1.suffixMp3 ∧ e1.suffixMp3 < 1000 := by
  refine ⟨?_, rfl, e1.randrangeOkMp3.1, e1.randrangeOkMp3.2⟩
  simp [mp3PathOf, mkTempPath, h]

/-- Witness for C8: the two clashing attempts `envFull` and `envClash`
both generate `/tmp/5.mp3`. -/
theorem C8_temp_paths_clash_on_equal_draws_witness :
    mp3PathOf envFull = mp3PathOf envClash ∧
    mp3PathOf envFull = tempDirPosix ++ toString envFull.suffixMp3 ++ ".mp3" ∧
    1 ≤ envFull.suffixMp3 ∧ envFull.suffixMp3 < 1000 :=
  C8_temp_paths_clash_on_equal_draws envFull envClash rfl

/-- **C9.**  Whatever string the transcriber returns, the value typed
into the answer field (before the ENTER confirm action, whether or not
that confirm succeeds) is exactly its lower-casing. -/
theorem C9_typed_value_is_lowercased (env : Env) (attrs : List String)
    (src key : String)
    (h1 : env.findIframeInner = .ok ())
    (h2 : env.clickAnchor = .ok ())
    (h3 : env.waitDisplayed = .ok ())
    (h4 : env.checkmarkAttrs = .ok attrs)
    (h5 : "style" ∉ attrs)
    (h6 : env.findIframe = .ok ())
    (h7 : env.clickAudioButton = .ok ())
    (h8 : env.audioSrc = .ok src)
    (h9 : env.download = .ok ())
    (h10 : env.transcode = .ok ())
    (h11 : env.transcribe = .ok key)
    (h12 : env.inputText = .ok ()) :
    (solveCaptcha env).typed = some (pyLower key) := by
  rcases hp : env.pressEnter with e | u <;>
    simp [solveCaptcha, isSolved,
      h1, h2, h3, h4, h5, h6, h7, h8, h9, h10, h11, h12, hp]

/-- Witness for C9: transcriber output `Hello World` is typed as
`hello world`. -/
theorem C9_typed_value_is_lowercased_witness :
    (solveCaptcha envHello).typed = some "hello world" :=
  C9_typed_value_is_lowercased envHello ["class", "role"]
    "https://example.com/a.mp3" "Hello World"
    rfl rfl rfl rfl (by decide) rfl rfl rfl rfl rfl rfl rfl

/-- **C10 (counterexample).**  The claim says `solveCaptcha` returns
`None` on every execution, however it terminates.  In the execution
where the checkmark lookup inside `isSolved` fails, `solveCaptcha` does
not return at all: an `UnboundLocalError` propagates to the caller. -/
theorem C10_counterexample :
    (solveCaptcha envCheckmarkFails).retval = none ∧
    (solveCaptcha envCheckmarkFails).exn ≠ none :=
  ⟨rfl, fun h => (nomatch h)⟩

/-- **C10 (amended).**  Whenever `solveCaptcha` terminates without a
propagating exception, the `return` value is Python `None`: the caller
receives no value distinguishing the Solved, Unsolved and Aborted
outcomes.  (Executions where the solved-indicator lookup raises instead
terminate by a propagating `UnboundLocalError`.) -/
theorem C10_normal_return_is_always_none (env : Env)
    (h : (solveCaptcha env).exn = none) :
    (solveCaptcha env).retval = some PyVal.vNone := by
  obtain ⟨f1, f2, f3, f4, f5, f6, f7, s1, s2, r1, r2, d, tc, tr, it, pe⟩ := env
  rcases f1 with e1 | u1
  · rfl
  rcases f2 with e2 | u2
  · rfl
  rcases f3 with e3 | u3
  · rfl
  rcases f4 with e4 | a4
  · exact absurd h (by simp [solveCaptcha, isSolved])
  simp only [solveCaptcha, isSolved] at h ⊢
  split
  · rfl
  rcases f5 with e5 | u5
  · rfl
  rcases f6 with e6 | u6
  · rfl
  rcases f7 with e7 | v7
  · rfl
  rcases d with ed | ud
  · rfl
  rcases tc with ec | uc
  · rfl
  rcases tr with et | vt
  · rfl
  rcases it with ei | ui
  · rfl
  rcases pe with ep | up
  · rfl
  rfl

/-- Witness for C10: the §8 success scenario terminates without
exception, so the theorem yields the `None` return. -/
theorem C10_normal_return_is_always_none_witness :
    (solveCaptcha envFull).retval = some PyVal.vNone :=
  C10_normal_return_is_always_none envFull rfl
